import Mathlib

/-!
Verification of the Application-fiesta job-application automation engine.

The Python sources are embedded shallowly: pandas CSV reads become a
`LedgerRead` value (missing file / empty file / unparseable file / parsed
records), the Selenium driver becomes an oracle supplying, per call, either a
found element or a raised exception, and the TF-IDF similarity and key-phrase
extraction from scikit-learn (external, outside the scope of the spec) become
function parameters constrained only where a claim needs their documented
output contract.  Machine floats are modelled as rationals; the Python
`round(x, 3)` operation (round half to even) is embedded explicitly as `pyRound3`.
-/

namespace AppFiesta

/-! ## Python primitives -/

/-- Python `round` at the integer level: round half to even. -/
def pyRoundHalfEven (x : ℚ) : ℤ :=
  let f : ℤ := Rat.floor x
  let r : ℚ := x - f
  if r < 1/2 then f
  else if 1/2 < r then f + 1
  else if f % 2 = 0 then f else f + 1

/-- Python `round(x, 3)` on exact rationals. -/
def pyRound3 (x : ℚ) : ℚ :=
  (pyRoundHalfEven (x * 1000) : ℚ) / 1000

/-- Python list slice `l[:n]` for an `int` bound `n` (negative bounds count
from the end, clamped at zero). -/
def pySliceTo (n : ℤ) (l : List α) : List α :=
  if 0 ≤ n then l.take n.toNat else l.take (l.length - n.natAbs)

/-- Python `d.get(key, default)` for an optional string field. -/
def pyGet (o : Option String) (d : String) : String := o.getD d

/-- Python `needle in hay` on lists of characters. -/
def listHasSub (needle : List Char) : List Char → Bool
  | [] => needle.isEmpty
  | c :: rest => needle.isPrefixOf (c :: rest) || listHasSub needle rest

/-- Python substring test `needle in hay`. -/
def strHasSub (hay needle : String) : Bool :=
  listHasSub needle.toList hay.toList

/-- Fuel-driven worker for `strCount`; the fuel starts at the haystack length,
which suffices because every recursive step drops at least one character of a
nonempty needle match or one character of the haystack. -/
def countOccAux (needle : List Char) : ℕ → List Char → ℕ
  | 0, _ => 0
  | _ + 1, [] => 0
  | fuel + 1, c :: rest =>
    if needle.isPrefixOf (c :: rest) then
      1 + countOccAux needle fuel ((c :: rest).drop needle.length)
    else
      countOccAux needle fuel rest

/-- Python `hay.count(needle)`: non-overlapping occurrences, left to right. -/
def strCount (hay needle : String) : ℕ :=
  if needle.isEmpty then 0
  else countOccAux needle.toList hay.toList.length hay.toList

/-- Python `s.split()`: maximal runs of non-whitespace. -/
def splitWords (s : String) : List String :=
  (s.split fun c => c.isWhitespace).filter fun w => w ≠ ""

/-! ## The application ledger (`src/application_manager.py`, `src/utils.py`)

One row of `data/applications.csv`, with the columns written by
`ApplicationTracker.log_application`. -/

/-- A row of the applications CSV (`ApplicationTracker` columns). -/
structure LedgerRecord where
  application_date : String
  company : String
  position : String
  location : String
  job_url : String
  similarity_score : ℚ
  application_status : String
  platform : String
  job_type : String
  salary_range : String
  description_snippet : String
  key_skills : String
  notes : String
  follow_up_date : String
  response_received : String
  interview_scheduled : String
deriving DecidableEq

/-- Outcome of `pd.read_csv` on the ledger file: `missing` raises
`FileNotFoundError`, `empty` raises `pd.errors.EmptyDataError`, `corrupt`
raises some other exception, `ok` parses into rows. -/
inductive LedgerRead where
  | missing
  | empty
  | corrupt
  | ok (records : List LedgerRecord)
deriving DecidableEq

/-- `utils.calculate_applications_today`: counts rows whose
`application_date` contains the date string for today; `FileNotFoundError` and
`EmptyDataError` are caught and yield 0, and the final bare
`except Exception` also logs and yields 0. -/
def calculateApplicationsToday (today : String) : LedgerRead → ℕ
  | .missing => 0
  | .empty => 0
  | .corrupt => 0
  | .ok records =>
    (records.filter fun r => strHasSub r.application_date today).length

/-- `ApplicationTracker.check_already_applied`: `job_url in df[job_url].values`,
with a bare `except:` returning `False` on any read failure. -/
def checkAlreadyApplied : LedgerRead → String → Bool
  | .ok records, url => records.any fun r => r.job_url == url
  | _, _ => false

/-- A discovered job posting as the pandas row dict the pipeline passes
around; absent keys and NaN cells are both `none` (both are falsy and both
read back as the `dict.get` default at every use site). -/
structure Job where
  title : Option String
  company : Option String
  location : Option String
  job_url : Option String
  description : Option String
  job_type : Option String
  compensation : Option String
deriving DecidableEq

/-- The record `ApplicationTracker.log_application` constructs from a job
dict, a similarity score and a status.  The job dicts reaching it never carry
an `extracted_skills` key, so `key_skills` is always the join of the default
`[]`. -/
def mkLedgerRecord (now : String) (job : Job) (similarity : ℚ) (status : String) :
    LedgerRecord where
  application_date := now
  company := pyGet job.company "Unknown"
  position := pyGet job.title "Unknown"
  location := pyGet job.location "Unknown"
  job_url := pyGet job.job_url ""
  similarity_score := pyRound3 similarity
  application_status := status
  platform := "LinkedIn"
  job_type := pyGet job.job_type "Unknown"
  salary_range := pyGet job.compensation "Not specified"
  description_snippet := (pyGet job.description "").take 200 ++ "..."
  key_skills := ""
  notes := ""
  follow_up_date := ""
  response_received := "No"
  interview_scheduled := "No"

/-- `ApplicationTracker.log_application`: read the CSV, append one row, write
back.  Its `try`/`except` swallows every exception, so when the read raises
(missing, empty or corrupt file) nothing is appended and the file is left as
it was. -/
def logApplication (now : String) (ledger : LedgerRead) (job : Job)
    (similarity : ℚ) (status : String) : LedgerRead :=
  match ledger with
  | .ok records => .ok (records ++ [mkLedgerRecord now job similarity status])
  | other => other

/-- The rows a ledger state holds (a file that cannot be parsed holds none). -/
def ledgerRecords : LedgerRead → List LedgerRecord
  | .ok records => records
  | _ => []

/-! ## The fit scorer (`src/resume_tailor.py`)

The TF-IDF vector-space similarity and key-phrase extraction are the external
scikit-learn collaborator; they enter as function parameters `sim` (which may
raise, modelled by `Except`) and `kp`.  Everything else is embedded. -/

/-- `ResumeAITailor.clean_text`: lowercase, replace characters outside
`[a-zA-Z0-9\s]` by spaces, collapse whitespace runs, strip.  A falsy or NaN
input yields the empty string. -/
def cleanText (t : Option String) : String :=
  match t with
  | none => ""
  | some s =>
    if s == "" then ""
    else
      let lowered := s.toList.map Char.toLower
      let replaced := lowered.map fun c =>
        if c.isAlphanum || c.isWhitespace then c else ' '
      String.intercalate " " (splitWords (String.mk replaced))

/-- Falsiness of the `job_description` argument as tested by
`if not job_description or pd.isna(job_description)`. -/
def descFalsy : Option String → Bool
  | none => true
  | some s => s == ""

/-- `ResumeAITailor.load_skill_database`, in Python dict insertion order. -/
def skillKeywords : List (String × List String) :=
  [("programming", ["python", "r"]),
   ("economics",
    ["econometrics", "difference-in-differences", "did regression",
     "causal inference", "instrumental variables", "regression discontinuity",
     "panel data analysis", "time series analysis", "forecasting",
     "economic modeling", "stata", "eviews", "monetary policy",
     "fiscal policy", "macroeconomics", "microeconomics", "gdp analysis",
     "inflation modeling", "economic growth", "market analysis",
     "financial economics", "behavioral economics", "development economics",
     "international economics", "labor economics", "public economics",
     "game theory", "optimization", "cost-benefit analysis",
     "policy analysis", "economic research", "quantitative economics",
     "applied economics"]),
   ("statistics",
    ["statistical analysis", "hypothesis testing", "p-values",
     "confidence intervals", "normal distribution", "regression analysis",
     "anova", "chi-square test", "t-test", "correlation analysis",
     "multivariate analysis", "bayesian statistics",
     "non-parametric statistics", "survival analysis", "factor analysis",
     "cluster analysis", "monte carlo simulation", "bootstrap methods",
     "statistical modeling", "experimental design", "a/b testing",
     "statistical inference", "descriptive statistics", "probability theory",
     "stochastic processes", "statistical software"]),
   ("finance",
    ["financial modeling", "valuation", "dcf analysis",
     "financial statements", "ratio analysis", "risk management",
     "portfolio optimization", "derivatives", "fixed income",
     "equity analysis", "credit analysis", "financial planning", "budgeting",
     "forecasting", "variance analysis", "cost accounting",
     "management accounting", "financial reporting", "audit", "compliance",
     "bloomberg terminal", "reuters", "factset", "capital markets",
     "investment banking", "corporate finance", "quantitative finance"]),
   ("business_tools", ["excel", "tableau"]),
   ("macro_research_methodologies",
    ["time series analysis", "vector autoregression", "VAR models",
     "structural equation modeling", "dynamic stochastic general equilibrium",
     "DSGE models", "panel data econometrics", "cointegration analysis",
     "error correction models", "macroeconomic forecasting",
     "bayesian econometrics", "state space models", "kalman filter",
     "impulse response functions", "spectral analysis",
     "nonlinear time series", "HAC estimators",
     "heteroskedasticity and autocorrelation consistent",
     "macroeconomic policy analysis", "macroeconomic modeling",
     "growth accounting", "business cycle analysis",
     "monetary policy analysis", "fiscal policy evaluation",
     "macroeconomic data analysis", "structural breaks",
     "panel cointegration", "unit root tests", "macroeconometrics",
     "granger causality", "johansen cointegration", "arch models",
     "garch models", "volatility modeling"])]

/-- One entry of the skills list of the requirements dict. -/
structure SkillMatch where
  skill : String
  category : String
  frequency : ℕ
deriving DecidableEq

/-- The requirements dict built by `extract_job_requirements`.  On the
empty-description early return the source dict lacks the last three keys;
they are modelled by the values every downstream reader obtains for them
(culture keywords are read back via `.get` with default `[]`; `word_count` and `complexity_score` are
never read). -/
structure Requirements where
  skills : List SkillMatch
  experience_level : String
  key_phrases : List String
  culture_keywords : List String
  word_count : ℕ
  complexity_score : ℚ
deriving DecidableEq

/-- Stable insertion of a skill into a frequency-descending list (matches the
output of the stable Python `list.sort(key=frequency, reverse=True)`). -/
def insertSkillDesc (x : SkillMatch) : List SkillMatch → List SkillMatch
  | [] => [x]
  | y :: ys =>
    if y.frequency < x.frequency then x :: y :: ys else y :: insertSkillDesc x ys

/-- Stable sort of skill matches by frequency, descending. -/
def sortSkillsDesc : List SkillMatch → List SkillMatch
  | [] => []
  | x :: xs => insertSkillDesc x (sortSkillsDesc xs)

/-- `ResumeAITailor.extract_experience_level`: first level (dict order) one of
whose patterns occurs in the text, defaulting to entry. -/
def experiencePatterns : List (String × List String) :=
  [("entry",
    ["entry level", "junior", "graduate", "new grad", "0-2 years",
     "recent graduate"]),
   ("mid",
    ["mid level", "intermediate", "2-5 years", "3-7 years", "experienced"]),
   ("senior",
    ["senior", "lead", "principal", "5+ years", "7+ years", "expert",
     "advanced"]),
   ("executive",
    ["director", "manager", "head of", "vp", "vice president", "chief",
     "executive"])]

/-- `extract_experience_level` over cleaned job text. -/
def extractExperienceLevel (txt : String) : String :=
  match experiencePatterns.find? (fun lp => lp.2.any fun p => strHasSub txt p) with
  | some lp => lp.1
  | none => "entry"

/-- `ResumeAITailor.extract_culture_keywords` indicator list. -/
def cultureIndicators : List String :=
  ["collaborative", "innovative", "fast-paced", "dynamic", "flexible",
   "remote", "hybrid", "team player", "leadership", "growth mindset",
   "diversity", "inclusion", "work-life balance", "startup", "enterprise"]

/-- `extract_culture_keywords`. -/
def extractCultureKeywords (txt : String) : List String :=
  cultureIndicators.filter fun k => strHasSub txt k

/-- `ResumeAITailor.calculate_complexity_score`. -/
def calculateComplexityScore (txt : String) : ℚ :=
  let technicalTerms : ℕ :=
    (skillKeywords.map fun cs => (cs.2.filter fun sk => strHasSub txt sk).length).sum
  let wordCount : ℕ := (splitWords txt).length
  pyRound3 (min ((technicalTerms : ℚ) / max ((wordCount : ℚ) / 100) 1) 1)

/-- `ResumeAITailor.extract_job_requirements`, with the scikit-learn key-phrase
extraction abstracted as `kp raw-resume cleaned-text`. -/
def extractJobRequirements (kp : String → String → List String)
    (resume : String) (desc : Option String) : Requirements :=
  if descFalsy desc then
    { skills := [], experience_level := "unknown", key_phrases := [],
      culture_keywords := [], word_count := 0, complexity_score := 0 }
  else
    let cd := cleanText desc
    let found :=
      (skillKeywords.map fun cs =>
        (cs.2.filter fun sk => strHasSub cd sk).map fun sk =>
          SkillMatch.mk sk cs.1 (strCount cd sk)).flatten
    { skills := (sortSkillsDesc found).take 15,
      experience_level := extractExperienceLevel cd,
      key_phrases := (kp resume cd).take 10,
      culture_keywords := extractCultureKeywords cd,
      word_count := (splitWords cd).length,
      complexity_score := calculateComplexityScore cd }

/-- `ResumeAITailor.calculate_resume_job_similarity`: clean both texts, ask the
external TF-IDF cosine similarity `sim`, round to three decimals; any raised
exception is caught and becomes 0.0. -/
def calculateResumeJobSimilarity (sim : String → String → Except String ℚ)
    (resume : String) (desc : Option String) : ℚ :=
  match sim (cleanText (some resume)) (cleanText desc) with
  | .error _ => 0
  | .ok s => pyRound3 s

/-- `ResumeAITailor.calculate_priority_score`. -/
def calculatePriorityScore (reqs : Requirements) (similarity : ℚ) : ℚ :=
  let skillBoost : ℚ := min ((reqs.skills.length : ℚ) * (2/100)) (2/10)
  let experienceBoost : ℚ :=
    if reqs.experience_level = "entry" ∨ reqs.experience_level = "mid"
    then 1/10 else 5/100
  let cultureBoost : ℚ := (reqs.culture_keywords.length : ℚ) * (1/100)
  min (pyRound3 (similarity + skillBoost + experienceBoost + cultureBoost)) 1

/-- The `culture_responses` dict of `generate_culture_paragraph`. -/
def cultureResponses : List (String × String) :=
  [("collaborative",
    "I thrive in collaborative environments and enjoy working with cross-functional teams."),
   ("innovative",
    "I am passionate about innovation and bringing creative solutions to complex challenges."),
   ("fast-paced",
    "I excel in fast-paced environments and adapt quickly to changing priorities."),
   ("remote",
    "I have extensive experience working effectively in remote and distributed teams."),
   ("growth mindset",
    "I embrace continuous learning and am always seeking opportunities to grow professionally.")]

/-- `ResumeAITailor.generate_culture_paragraph`. -/
def generateCultureParagraph (cultureKeywords : List String) : String :=
  if cultureKeywords.isEmpty then
    "I am particularly drawn to your company\x27s commitment to innovation and excellence."
  else
    let responses :=
      (cultureKeywords.take 2).map fun k => (cultureResponses.lookup k).getD ""
    let relevant := responses.filter fun r => r ≠ ""
    if relevant ≠ [] then String.intercalate " " relevant
    else
      "I am excited about the opportunity to contribute to your team\x27s success and grow within your organization."

/-- The `experience_content` dict of `generate_experience_content`. -/
def experienceContentTable : List (String × String) :=
  [("entry",
    "As a recent graduate with a strong foundation in technology and analytics, I am eager to apply my skills in a professional environment."),
   ("mid",
    "With several years of experience in data analysis and technology, I have developed strong skills in problem-solving and project execution."),
   ("senior",
    "As an experienced professional with a proven track record in leadership and technical excellence, I am excited about taking on new challenges."),
   ("executive",
    "With extensive leadership experience and a strategic mindset, I am well-positioned to drive organizational success.")]

/-- `ResumeAITailor.generate_experience_content`
(`dict.get(level, entry-content)`). -/
def generateExperienceContent (level : String) : String :=
  (experienceContentTable.lookup level).getD
    ((experienceContentTable.lookup "entry").getD "")

/-- `ResumeAITailor.generate_tailored_cover_letter`.  Its body is total, so the
`except` fallback to `get_default_cover_letter` is unreachable in the model. -/
def generateTailoredCoverLetter (job : Job) (reqs : Requirements) : String :=
  let company := pyGet job.company "the company"
  let position := pyGet job.title "this position"
  let topSkills := (reqs.skills.take 5).map fun s => s.skill
  let skillsText :=
    if topSkills ≠ [] then String.intercalate ", " topSkills
    else "relevant technologies"
  let cultureText := generateCultureParagraph reqs.culture_keywords
  let experienceContent := generateExperienceContent reqs.experience_level
  "Dear Hiring Manager,\n\nI am writing to express my strong interest in the "
    ++ position ++ " role at " ++ company ++ ". " ++ experienceContent
    ++ "\n\nYour job posting particularly caught my attention because of the opportunity to work with "
    ++ skillsText
    ++ ". My background aligns well with your requirements, and I am excited about the possibility of contributing to "
    ++ company ++ "\x27s continued success.\n\n" ++ cultureText
    ++ "\n\nI would welcome the opportunity to discuss how my skills and enthusiasm can benefit your team. Thank you for considering my application.\n\nBest regards,\n[Your Name]"

/-- `ResumeAITailor.generate_recommendations`. -/
def generateRecommendations (reqs : Requirements) (similarity : ℚ) : List String :=
  let first :=
    if similarity < 3/10 then
      "Consider focusing on positions that better match your current skill set"
    else if similarity < 6/10 then
      "Good potential match - emphasize transferable skills in your application"
    else
      "Excellent match - strong candidate for this position"
  let withSkills :=
    [first] ++
      (if 10 < reqs.skills.length then
        ["This role requires diverse technical skills - highlight your adaptability"]
      else [])
  withSkills ++
    (if reqs.experience_level = "senior" ∧ 7/10 < similarity then
      ["Consider emphasizing leadership and mentoring experience"]
    else if reqs.experience_level = "entry" then
      ["Focus on education, projects, and eagerness to learn"]
    else [])

/-- The analysis dict returned by `analyze_application_fit`. -/
structure Analysis where
  similarity_score : ℚ
  priority_score : ℚ
  requirements : Requirements
  cover_letter : String
  recommendations : List String
  should_apply : Bool
  analysis_timestamp : String
deriving DecidableEq

/-- The hard-coded `similarity_threshold` of `Config.job_search_config`. -/
def similarityThreshold : ℚ := 6/10

/-- `ResumeAITailor.analyze_application_fit`.  `sim`/`kp` are the external
TF-IDF collaborator, `resume` the base profile text loaded at construction,
`now` the wall-clock timestamp. -/
def analyzeApplicationFit (sim : String → String → Except String ℚ)
    (kp : String → String → List String) (resume now : String)
    (job : Job) : Analysis :=
  let reqs := extractJobRequirements kp resume job.description
  let similarity := calculateResumeJobSimilarity sim resume job.description
  { similarity_score := similarity,
    priority_score := calculatePriorityScore reqs similarity,
    requirements := reqs,
    cover_letter := generateTailoredCoverLetter job reqs,
    recommendations := generateRecommendations reqs similarity,
    should_apply := decide (similarityThreshold ≤ similarity),
    analysis_timestamp := now }

/-! ## Orchestration (`src/automation.py`, `main.py`)

Two entry points share the scoring/dedup/sort/truncate shape but differ in the
priority cut-off (0.6 vs 0.1) and in whether the loop polls the cancellation
flag.  `running i` is the value of `self.is_running` when it is consulted
before iteration `i`. -/

/-- The scoring loop of `LinkedInAutomationController._analyze_and_filter_jobs`:
poll the cancellation flag, skip URLs already in the ledger, analyze, keep
postings with `should_apply` and `priority_score > 0.6`. -/
def autoFilterLoop (check : String → Bool) (analyzeF : Job → Analysis)
    (running : ℕ → Bool) : ℕ → List Job → List (Job × Analysis)
  | _, [] => []
  | i, j :: rest =>
    if running i = false then []
    else if check (pyGet j.job_url "") then
      autoFilterLoop check analyzeF running (i + 1) rest
    else
      let a := analyzeF j
      if a.should_apply && decide ((6/10 : ℚ) < a.priority_score) then
        (j, a) :: autoFilterLoop check analyzeF running (i + 1) rest
      else
        autoFilterLoop check analyzeF running (i + 1) rest

/-- The scoring loop of `main.main` (threshold `0.1`, no cancellation poll). -/
def mainFilterLoop (check : String → Bool) (analyzeF : Job → Analysis) :
    List Job → List (Job × Analysis)
  | [] => []
  | j :: rest =>
    if check (pyGet j.job_url "") then mainFilterLoop check analyzeF rest
    else
      let a := analyzeF j
      if a.should_apply && decide ((1/10 : ℚ) < a.priority_score) then
        (j, a) :: mainFilterLoop check analyzeF rest
      else
        mainFilterLoop check analyzeF rest

/-- Stable insertion into a priority-descending list (matching the output of
the stable Python `list.sort(key=priority_score, reverse=True)`). -/
def insertPriorityDesc (x : Job × Analysis) :
    List (Job × Analysis) → List (Job × Analysis)
  | [] => [x]
  | y :: ys =>
    if y.2.priority_score < x.2.priority_score then x :: y :: ys
    else y :: insertPriorityDesc x ys

/-- Stable sort of scored candidates by priority score, descending. -/
def sortByPriorityDesc : List (Job × Analysis) → List (Job × Analysis)
  | [] => []
  | x :: xs => insertPriorityDesc x (sortByPriorityDesc xs)

/-- `_analyze_and_filter_jobs` end to end: score/dedup/filter, sort by
priority, re-read the count for today from the (unchanged) ledger and truncate to
`MAX_APPLICATIONS_PER_DAY - today_count`. -/
def analyzeAndFilterJobs (sim : String → String → Except String ℚ)
    (kp : String → String → List String) (resume now today : String)
    (ledger : LedgerRead) (maxPerDay : ℕ) (running : ℕ → Bool)
    (jobs : List Job) : List (Job × Analysis) :=
  let qualified :=
    autoFilterLoop (checkAlreadyApplied ledger)
      (analyzeApplicationFit sim kp resume now) running 0 jobs
  let sorted := sortByPriorityDesc qualified
  let todayCount := calculateApplicationsToday today ledger
  pySliceTo ((maxPerDay : ℤ) - (todayCount : ℤ)) sorted

/-- `run_daily_automation` up to the candidate selection: the preflight check
aborts when the count for today has reached `MAX_APPLICATIONS_PER_DAY` or another
preflight condition (keywords, credentials, connectivity) fails, and the run
also stops before scoring when discovery returned no jobs.  `none` means no
selection took place. -/
def automationRunSelection (sim : String → String → Except String ℚ)
    (kp : String → String → List String) (resume now today : String)
    (ledger : LedgerRead) (maxPerDay : ℕ) (otherPreflightOk : Bool)
    (running : ℕ → Bool) (jobs : List Job) :
    Option (List (Job × Analysis)) :=
  let todayCount := calculateApplicationsToday today ledger
  if maxPerDay ≤ todayCount then none
  else if !otherPreflightOk then none
  else if jobs.isEmpty then none
  else
    some (analyzeAndFilterJobs sim kp resume now today ledger maxPerDay running jobs)

/-- `main.main` up to the candidate selection: the remaining quota is computed
once at the start, and the loop has no cancellation poll. -/
def mainRunSelection (sim : String → String → Except String ℚ)
    (kp : String → String → List String) (resume now today : String)
    (ledger : LedgerRead) (maxPerDay : ℕ) (jobs : List Job) :
    Option (List (Job × Analysis)) :=
  let todayCount := calculateApplicationsToday today ledger
  if maxPerDay ≤ todayCount then none
  else
    let remaining : ℤ := (maxPerDay : ℤ) - (todayCount : ℤ)
    if jobs.isEmpty then none
    else
      some (pySliceTo remaining
        (sortByPriorityDesc
          (mainFilterLoop (checkAlreadyApplied ledger)
            (analyzeApplicationFit sim kp resume now) jobs)))

/-- Counters accumulated by `_execute_applications` together with the ledger
state after its writes. -/
structure ExecResult where
  ledger : LedgerRead
  attempted : ℕ
  successful : ℕ
  failed : ℕ
deriving DecidableEq

/-- The submission loop of `_execute_applications` over the selected
candidates, 1-indexed as by `enumerate(qualified_jobs, 1)`.  `applyOutcome i`
is what `automation_bot.apply_to_job` does on candidate `i`: returns a
success flag or raises.  Each attempted candidate gets exactly one ledger
write (status Applied/Failed, or Error when the attempt raised and the
per-item handler caught it); the flag is polled before each candidate and a
cleared flag breaks the loop without touching later candidates. -/
def executeApplicationsLoop (now : String)
    (applyOutcome : ℕ → Except String Bool) (running : ℕ → Bool) :
    LedgerRead → ℕ → List (Job × Analysis) → ExecResult
  | led, _, [] => ⟨led, 0, 0, 0⟩
  | led, i, (j, a) :: rest =>
    if running i = false then ⟨led, 0, 0, 0⟩
    else
      match applyOutcome i with
      | .ok success =>
        let status := if success then "Applied" else "Failed"
        let led' := logApplication now led j a.similarity_score status
        let r := executeApplicationsLoop now applyOutcome running led' (i + 1) rest
        ⟨r.ledger, r.attempted + 1,
          r.successful + (if success then 1 else 0),
          r.failed + (if success then 0 else 1)⟩
      | .error _ =>
        let led' := logApplication now led j a.similarity_score "Error"
        let r := executeApplicationsLoop now applyOutcome running led' (i + 1) rest
        ⟨r.ledger, r.attempted + 1, r.successful, r.failed + 1⟩

/-- `_execute_applications` (after browser init and login). -/
def executeApplications (now : String)
    (applyOutcome : ℕ → Except String Bool) (running : ℕ → Bool)
    (ledger : LedgerRead) (jobs : List (Job × Analysis)) : ExecResult :=
  executeApplicationsLoop now applyOutcome running ledger 1 jobs

/-! ## The submission state machine (`src/linkedin_automation.py`)

The Selenium driver is an oracle: every selector lookup either raises (any
exception, including the ones `safe_find_element` re-raises), finds nothing,
or finds an element.  A found button may be disabled, and clicking it may
itself raise. -/

/-- A button found by the driver: whether `is_enabled()` holds, and whether a
subsequent `click()` raises. -/
structure FoundButton where
  enabled : Bool
  clickRaises : Option String
deriving DecidableEq

/-- The behaviour of the driver during one iteration of
`_process_application_forms`: the per-selector results of the completion
check, whether an exception escapes the four best-effort fill helpers into
the handler of `_fill_current_form_step`, and the per-selector results of the
proceed-button search. -/
structure StepBehavior where
  completionFinds : List (Except String (Option Unit))
  fillRaises : Option String
  proceedFinds : List (Except String (Option FoundButton))

/-- The behaviour of the driver during one `apply_to_job` call. -/
structure JobBehavior where
  navigateRaises : Option String
  easyApplyFinds : List (Except String (Option FoundButton))
  formSteps : ℕ → StepBehavior

/-- `_is_application_complete`: try each completion indicator, treating a
raised lookup as not-found (`except Exception: continue`). -/
def isApplicationComplete (sb : StepBehavior) : Bool :=
  sb.completionFinds.any fun r =>
    match r with
    | .ok (some _) => true
    | _ => false

/-- `_fill_current_form_step`: the four field-category helpers swallow their
own exceptions per selector; anything that still escapes is caught by the
handler of this function, which returns `False`. -/
def fillCurrentFormStep (sb : StepBehavior) : Bool :=
  sb.fillRaises.isNone

/-- `_proceed_to_next_step`: try each Next/Continue/Submit selector in order;
a raised lookup, a missing element, a disabled button or a raising click all
fall through to the next selector; a successful click returns `True`, and
exhausting the list returns `False`. -/
def proceedFindLoop : List (Except String (Option FoundButton)) → Bool
  | [] => false
  | r :: rest =>
    match r with
    | .error _ => proceedFindLoop rest
    | .ok none => proceedFindLoop rest
    | .ok (some b) =>
      if b.enabled then
        match b.clickRaises with
        | none => true
        | some _ => proceedFindLoop rest
      else proceedFindLoop rest

/-- `_proceed_to_next_step` applied to the driver behaviour of one step. -/
def proceedToNextStep (sb : StepBehavior) : Bool :=
  proceedFindLoop sb.proceedFinds

/-- The `while current_step < max_steps` loop of
`_process_application_forms`, returning the outcome together with the number
of loop iterations (form steps) executed.  The remaining loop allowance
`max_steps - current_step` is the structural fuel. -/
def processFormsAux (steps : ℕ → StepBehavior) : ℕ → ℕ → Bool × ℕ
  | _, 0 => (false, 0)
  | cur, remaining + 1 =>
    let sb := steps cur
    if isApplicationComplete sb then (true, 1)
    else if fillCurrentFormStep sb = false then (false, 1)
    else if proceedToNextStep sb = false then (false, 1)
    else
      let r := processFormsAux steps (cur + 1) remaining
      (r.1, r.2 + 1)

/-- The hard step bound of `_process_application_forms`. -/
def maxFormSteps : ℕ := 5

/-- `_process_application_forms`: outcome and number of form steps used. -/
def processApplicationForms (steps : ℕ → StepBehavior) : Bool × ℕ :=
  processFormsAux steps 0 maxFormSteps

/-- `_find_easy_apply_button`: ordered fallback selectors, first found and
enabled element wins; raised lookups and enabledness checks fall through. -/
def findEasyApplyButton : List (Except String (Option FoundButton)) →
    Option FoundButton
  | [] => none
  | r :: rest =>
    match r with
    | .error _ => findEasyApplyButton rest
    | .ok none => findEasyApplyButton rest
    | .ok (some b) => if b.enabled then some b else findEasyApplyButton rest

/-- The body of `apply_to_job` inside its `try`: navigation and the
entry-point click may raise, a missing entry point returns `False`, otherwise
the outcome is that of the form loop. -/
def applyToJobBody (jb : JobBehavior) : Except String Bool :=
  match jb.navigateRaises with
  | some e => .error e
  | none =>
    match findEasyApplyButton jb.easyApplyFinds with
    | none => .ok false
    | some b =>
      match b.clickRaises with
      | some e => .error e
      | none => .ok (processApplicationForms jb.formSteps).1

/-- `apply_to_job`: the outer `except Exception` converts any raised internal
exception into a `False` return, so the caller always receives a boolean. -/
def applyToJob (jb : JobBehavior) : Except String Bool :=
  match applyToJobBody jb with
  | .error _ => .ok false
  | .ok r => .ok r

/-! ## Helper lemmas -/

theorem ratFloor_intCast (n : ℤ) : Rat.floor (n : ℚ) = n := by
  rw [Rat.floor_def']
  simp

theorem pyRoundHalfEven_intCast (n : ℤ) : pyRoundHalfEven (n : ℚ) = n := by
  simp [pyRoundHalfEven, ratFloor_intCast]

theorem pyRound3_div1000 (n : ℤ) : pyRound3 ((n : ℚ) / 1000) = (n : ℚ) / 1000 := by
  unfold pyRound3
  rw [div_mul_cancel₀ _ (by norm_num : (1000 : ℚ) ≠ 0), pyRoundHalfEven_intCast]

theorem pyRound3_zero : pyRound3 0 = 0 := by
  have h := pyRound3_div1000 0
  simpa using h

theorem pyRoundHalfEven_ge (n : ℤ) (x : ℚ) (h : (n : ℚ) ≤ x) :
    n ≤ pyRoundHalfEven x := by
  have hf : n ≤ Rat.floor x := Rat.le_floor.mpr h
  simp only [pyRoundHalfEven]
  split_ifs <;> omega

theorem pyRound3_ge (n : ℤ) (x : ℚ) (h : (n : ℚ) / 1000 ≤ x) :
    (n : ℚ) / 1000 ≤ pyRound3 x := by
  have h1 : (n : ℚ) ≤ x * 1000 := by linarith
  have h2 : n ≤ pyRoundHalfEven (x * 1000) := pyRoundHalfEven_ge n _ h1
  unfold pyRound3
  have h3 : (n : ℚ) ≤ (pyRoundHalfEven (x * 1000) : ℚ) := by exact_mod_cast h2
  linarith

theorem pyRound3_nonneg (x : ℚ) (h : 0 ≤ x) : 0 ≤ pyRound3 x := by
  have := pyRound3_ge 0 x (by simpa using h)
  simpa using this

theorem pySliceTo_length_le (n : ℤ) (h : 0 ≤ n) (l : List α) :
    ((pySliceTo n l).length : ℤ) ≤ n := by
  unfold pySliceTo
  rw [if_pos h]
  have h1 : (l.take n.toNat).length ≤ n.toNat := l.length_take_le n.toNat
  omega

theorem mem_pySliceTo {p : α} (n : ℤ) (l : List α) (h : p ∈ pySliceTo n l) :
    p ∈ l := by
  unfold pySliceTo at h
  split_ifs at h <;> exact List.take_subset _ _ h

theorem processFormsAux_count_le (steps : ℕ → StepBehavior) :
    ∀ (fuel cur : ℕ), (processFormsAux steps cur fuel).2 ≤ fuel := by
  intro fuel
  induction fuel with
  | zero => intro cur; simp [processFormsAux]
  | succ n ih =>
    intro cur
    simp only [processFormsAux]
    split_ifs <;> simp
    exact ih (cur + 1)

/-! ## Claims -/

/-- Claim C2: for every behaviour of the UI-automation driver, including
driver calls that raise exceptions, one invocation of `apply_to_job` returns
exactly one of the two boolean outcomes (never an uncaught exception), and its
form loop `_process_application_forms` executes at most `max_steps = 5` form
steps. -/
theorem c2_submission_machine_terminal (jb : JobBehavior) :
    (applyToJob jb = .ok true ∨ applyToJob jb = .ok false) ∧
      (processApplicationForms jb.formSteps).2 ≤ maxFormSteps := by
  constructor
  · unfold applyToJob
    cases applyToJobBody jb with
    | error e => simp
    | ok r => cases r <;> simp
  · exact processFormsAux_count_le jb.formSteps maxFormSteps 0

/-- Claim C3 counterexample: a corrupt (unparseable) ledger does not surface
an error — `calculate_applications_today` returns 0 and
`check_already_applied` returns `False`, exactly as for a missing file, so
the run proceeds instead of aborting. -/
theorem c3_counterexample :
    calculateApplicationsToday "2026-10-12" LedgerRead.corrupt = 0 ∧
      checkAlreadyApplied LedgerRead.corrupt "https://linkedin.com/jobs/1" = false :=
  ⟨rfl, rfl⟩

/-- Claim C3 (amended): missing, empty and corrupt ledgers are all treated as
zero prior applications — both readers swallow every read exception
(`except (FileNotFoundError, EmptyDataError)` plus a catch-all) and return
the benign defaults, so corrupt data never aborts the run. -/
theorem c3_all_read_failures_benign (today url : String) :
    calculateApplicationsToday today .missing = 0 ∧
    calculateApplicationsToday today .empty = 0 ∧
    calculateApplicationsToday today .corrupt = 0 ∧
    checkAlreadyApplied .missing url = false ∧
    checkAlreadyApplied .empty url = false ∧
    checkAlreadyApplied .corrupt url = false :=
  ⟨rfl, rfl, rfl, rfl, rfl, rfl⟩

/-- A TF-IDF stub that reports zero similarity, used to instantiate external
collaborators in witnesses. -/
def simZero : String → String → Except String ℚ := fun _ _ => Except.ok 0

/-- A key-phrase stub returning no phrases, for witnesses. -/
def kpNone : String → String → List String := fun _ _ => []

/-- A job row with every cell absent/NaN, for witnesses. -/
def jobBlank : Job := ⟨none, none, none, none, none, none, none⟩

/-- Claim C4 counterexample: on an empty job description
`extract_job_requirements` reports `experience_level = "unknown"`, not the
`"entry"` the claim states. -/
theorem c4_counterexample :
    (extractJobRequirements kpNone "" (some "")).experience_level = "unknown" ∧
      (extractJobRequirements kpNone "" (some "")).experience_level ≠ "entry" :=
  ⟨rfl, by decide⟩

/-- Claim C4 (amended): for every job whose description is empty or NaN, the
fit analysis returns zero extracted skills, `experience_level = "unknown"`
(the early-return value, not `"entry"`) and `similarity_score = 0.0` (the
external cosine similarity against an empty document is 0, and a raised
similarity exception is caught into 0.0), and the embedding is total so the
batch continues. -/
theorem c4_empty_description_degrades (sim : String → String → Except String ℚ)
    (kp : String → String → List String) (resume now : String) (job : Job)
    (hdesc : descFalsy job.description = true)
    (hsim0 : ∀ a, sim a "" = Except.ok 0 ∨ ∃ e, sim a "" = Except.error e) :
    (analyzeApplicationFit sim kp resume now job).requirements.skills = [] ∧
    (analyzeApplicationFit sim kp resume now job).requirements.experience_level
      = "unknown" ∧
    (analyzeApplicationFit sim kp resume now job).similarity_score = 0 := by
  have hclean : cleanText job.description = "" := by
    cases hd : job.description with
    | none => rfl
    | some s =>
      rw [hd] at hdesc
      simp only [descFalsy] at hdesc
      simp [cleanText, hdesc]
  refine ⟨?_, ?_, ?_⟩
  · show (extractJobRequirements kp resume job.description).skills = []
    simp [extractJobRequirements, hdesc]
  · show (extractJobRequirements kp resume job.description).experience_level
      = "unknown"
    simp [extractJobRequirements, hdesc]
  · show calculateResumeJobSimilarity sim resume job.description = 0
    unfold calculateResumeJobSimilarity
    rw [hclean]
    rcases hsim0 (cleanText (some resume)) with h | ⟨e, h⟩ <;> rw [h]
    exact pyRound3_zero

/-- Witness for C4 at a concrete all-NaN job row and the zero-similarity
collaborator. -/
theorem c4_witness :
    (analyzeApplicationFit simZero kpNone "" "t" jobBlank).requirements.skills
      = [] ∧
    (analyzeApplicationFit simZero kpNone "" "t"
      jobBlank).requirements.experience_level = "unknown" ∧
    (analyzeApplicationFit simZero kpNone "" "t" jobBlank).similarity_score = 0 :=
  c4_empty_description_degrades simZero kpNone "" "t" jobBlank rfl
    (fun _ => Or.inl rfl)

theorem calculatePriorityScore_eq (reqs : Requirements) (s : ℚ) :
    calculatePriorityScore reqs s =
      min (pyRound3 (s + min ((reqs.skills.length : ℚ) * (2/100)) (2/10) +
        (if reqs.experience_level = "entry" ∨ reqs.experience_level = "mid"
          then (1/10 : ℚ) else 5/100) +
        (reqs.culture_keywords.length : ℚ) * (1/100))) 1 := rfl

/-- Claim C6: `calculate_priority_score` equals
`similarity + min(0.02·|skills|, 0.2) + (0.1 if level ∈ {entry, mid} else
0.05) + 0.01·|culture|`, clamped to `[0, 1]` — exactly, because the
similarity fed to it is always a three-decimal rounding (a multiple of
1/1000, the hypothesis), which makes the internal `round(·, 3)` the
identity, and because all terms are non-negative, which makes the internal
one-sided `min(·, 1.0)` agree with the two-sided clamp. -/
theorem c6_priority_score_formula (reqs : Requirements) (s : ℚ) (k : ℕ)
    (hs : s = (k : ℚ) / 1000) :
    calculatePriorityScore reqs s =
      max 0 (min 1 (s + min ((reqs.skills.length : ℚ) * (2/100)) (2/10) +
        (if reqs.experience_level = "entry" ∨ reqs.experience_level = "mid"
          then (1/10 : ℚ) else 5/100) +
        (reqs.culture_keywords.length : ℚ) * (1/100))) := by
  rw [calculatePriorityScore_eq]
  set L := reqs.skills.length with hL
  set C := reqs.culture_keywords.length with hC
  set T : ℚ := s + min ((L : ℚ) * (2/100)) (2/10) +
    (if reqs.experience_level = "entry" ∨ reqs.experience_level = "mid"
      then (1/10 : ℚ) else 5/100) + (C : ℚ) * (1/100) with hT
  obtain ⟨m, hm⟩ : ∃ m : ℕ, T = (m : ℚ) / 1000 := by
    rw [hT, hs]
    by_cases hexp : reqs.experience_level = "entry" ∨ reqs.experience_level = "mid" <;>
      rcases le_total ((L : ℚ) * (2/100)) (2/10) with hmin | hmin
    · exact ⟨k + 20 * L + 100 + 10 * C, by
        rw [if_pos hexp, min_eq_left hmin]; push_cast; ring⟩
    · exact ⟨k + 200 + 100 + 10 * C, by
        rw [if_pos hexp, min_eq_right hmin]; push_cast; ring⟩
    · exact ⟨k + 20 * L + 50 + 10 * C, by
        rw [if_neg hexp, min_eq_left hmin]; push_cast; ring⟩
    · exact ⟨k + 200 + 50 + 10 * C, by
        rw [if_neg hexp, min_eq_right hmin]; push_cast; ring⟩
  have hT0 : 0 ≤ T := by rw [hm]; positivity
  have hround : pyRound3 T = T := by
    rw [hm]
    have := pyRound3_div1000 (m : ℤ)
    push_cast at this ⊢
    exact this
  rw [hround, min_comm T 1, max_eq_right (le_min (by norm_num) hT0)]

/-- The concrete requirements record used by the C6 witness. -/
def c6Reqs : Requirements := ⟨[], "entry", [], [], 0, 0⟩

/-- Witness for C6 at similarity 0.5 (= 500/1000) and an entry-level,
zero-skill, zero-culture requirements record. -/
theorem c6_witness :
    calculatePriorityScore c6Reqs (1/2) =
      max 0 (min 1 ((1/2 : ℚ) + min ((c6Reqs.skills.length : ℚ) * (2/100)) (2/10) +
        (if c6Reqs.experience_level = "entry" ∨ c6Reqs.experience_level = "mid"
          then (1/10 : ℚ) else 5/100) +
        (c6Reqs.culture_keywords.length : ℚ) * (1/100))) :=
  c6_priority_score_formula c6Reqs (1/2) 500 (by norm_num)

/-- Claim C8: the fit scorer is deterministic — two calls of
`analyze_application_fit` on equal posting rows with the same base profile
text and the same external collaborator yield identical similarity and
priority scores, even at different wall-clock timestamps. -/
theorem c8_scorer_deterministic (sim : String → String → Except String ℚ)
    (kp : String → String → List String) (resume now now' : String)
    (j j' : Job) (h : j = j') :
    (analyzeApplicationFit sim kp resume now j).similarity_score =
      (analyzeApplicationFit sim kp resume now' j').similarity_score ∧
    (analyzeApplicationFit sim kp resume now j).priority_score =
      (analyzeApplicationFit sim kp resume now' j').priority_score := by
  subst h
  exact ⟨rfl, rfl⟩

/-- Witness for C8 at a concrete job row and collaborator, with two distinct
timestamps. -/
theorem c8_witness :
    (analyzeApplicationFit simZero kpNone "" "t1" jobBlank).similarity_score =
      (analyzeApplicationFit simZero kpNone "" "t2" jobBlank).similarity_score ∧
    (analyzeApplicationFit simZero kpNone "" "t1" jobBlank).priority_score =
      (analyzeApplicationFit simZero kpNone "" "t2" jobBlank).priority_score :=
  c8_scorer_deterministic simZero kpNone "" "t1" "t2" jobBlank jobBlank rfl

theorem priorityScore_ge_five_hundredths (reqs : Requirements) (s : ℚ)
    (h : 0 ≤ s) : 5/100 ≤ calculatePriorityScore reqs s := by
  rw [calculatePriorityScore_eq]
  have hb : (5/100 : ℚ) ≤
      (if reqs.experience_level = "entry" ∨ reqs.experience_level = "mid"
        then (1/10 : ℚ) else 5/100) := by
    split_ifs <;> norm_num
  have h1 : (0 : ℚ) ≤ min ((reqs.skills.length : ℚ) * (2/100)) (2/10) :=
    le_min (by positivity) (by norm_num)
  have h2 : (0 : ℚ) ≤ (reqs.culture_keywords.length : ℚ) * (1/100) := by
    positivity
  have hT : ((50 : ℤ) : ℚ) / 1000 ≤ s + min ((reqs.skills.length : ℚ) * (2/100)) (2/10) +
      (if reqs.experience_level = "entry" ∨ reqs.experience_level = "mid"
        then (1/10 : ℚ) else 5/100) +
      (reqs.culture_keywords.length : ℚ) * (1/100) := by
    push_cast
    linarith
  have hr := pyRound3_ge 50 _ hT
  refine le_min ?_ (by norm_num)
  have : ((50 : ℤ) : ℚ) / 1000 = 5/100 := by norm_num
  linarith [hr, this.symm.le]

/-- Claim C10: for every analyzed posting — including one with an empty
description — the priority score is at least 0.05, provided only that the
external cosine similarity is non-negative (its documented range): the
experience boost is 0.1 or 0.05 in every branch (the `"unknown"` level of an
empty description takes the `else` branch worth 0.05) and the other terms are
non-negative, so the documented lower end 0 of `[0,1]` is never attained. -/
theorem c10_priority_lower_bound (sim : String → String → Except String ℚ)
    (kp : String → String → List String) (resume now : String) (job : Job)
    (hsim : ∀ a b r, sim a b = Except.ok r → 0 ≤ r) :
    5/100 ≤ (analyzeApplicationFit sim kp resume now job).priority_score := by
  have hs : 0 ≤ calculateResumeJobSimilarity sim resume job.description := by
    unfold calculateResumeJobSimilarity
    cases hsr : sim (cleanText (some resume)) (cleanText job.description) with
    | error e => exact le_refl 0
    | ok r => exact pyRound3_nonneg r (hsim _ _ r hsr)
  exact priorityScore_ge_five_hundredths
    (extractJobRequirements kp resume job.description)
    (calculateResumeJobSimilarity sim resume job.description) hs

/-- Witness for C10 at a concrete empty-description job: the zero-similarity
collaborator satisfies the non-negativity contract and the bound holds. -/
theorem c10_witness :
    5/100 ≤ (analyzeApplicationFit simZero kpNone "" "t" jobBlank).priority_score :=
  c10_priority_lower_bound simZero kpNone "" "t" jobBlank
    (fun _ _ r h => by
      injection h with h2
      exact h2 ▸ le_refl (0 : ℚ))

/-- A job row carrying a concrete URL, for the C7/C9 witnesses. -/
def jobUrlX : Job :=
  ⟨some "Economist", some "Acme", some "London", some "https://linkedin.com/jobs/42",
    none, none, none⟩

/-- Claim C7 counterexample: on an unreadable (corrupt) ledger state
`log_application` swallows the read exception and appends nothing, so the
exists query after the append still answers `False` — the round-trip fails
for that prior ledger state. -/
theorem c7_counterexample :
    checkAlreadyApplied
      (logApplication "2026-10-12 09:00:00" LedgerRead.corrupt jobUrlX (1/2) "Applied")
      "https://linkedin.com/jobs/42" = false := rfl

/-- Claim C7 (amended): for every readable ledger state, appending a record
via `log_application` makes `check_already_applied` answer `True` for that
URL of that job; when the ledger file cannot be read the append is silently skipped
and the query is unchanged. -/
theorem c7_append_then_exists (now : String) (records : List LedgerRecord)
    (job : Job) (similarity : ℚ) (status : String) :
    checkAlreadyApplied (logApplication now (.ok records) job similarity status)
      (pyGet job.job_url "") = true := by
  simp [logApplication, checkAlreadyApplied, mkLedgerRecord, List.any_append]

/-- Claim C1: whenever a run reaches candidate selection (so the preflight
quota guard passed), the scored/filtered/sorted/truncated candidate list has
length at most `MAX_APPLICATIONS_PER_DAY` minus the count of ledger records
dated today, in both orchestration entry points. -/
theorem c1_quota_bound (sim : String → String → Except String ℚ)
    (kp : String → String → List String) (resume now today : String)
    (ledger : LedgerRead) (maxPerDay : ℕ) (otherPreflightOk : Bool)
    (running : ℕ → Bool) (jobs : List Job) :
    (∀ sel, automationRunSelection sim kp resume now today ledger maxPerDay
        otherPreflightOk running jobs = some sel →
      (sel.length : ℤ) ≤
        (maxPerDay : ℤ) - (calculateApplicationsToday today ledger : ℤ)) ∧
    (∀ sel, mainRunSelection sim kp resume now today ledger maxPerDay jobs
        = some sel →
      (sel.length : ℤ) ≤
        (maxPerDay : ℤ) - (calculateApplicationsToday today ledger : ℤ)) := by
  constructor
  · intro sel h
    simp only [automationRunSelection] at h
    split_ifs at h with h1 h2 h3
    obtain rfl : analyzeAndFilterJobs sim kp resume now today ledger maxPerDay
        running jobs = sel := Option.some.inj h
    simp only [analyzeAndFilterJobs]
    exact pySliceTo_length_le _ (by omega) _
  · intro sel h
    simp only [mainRunSelection] at h
    split_ifs at h with h1 h2
    obtain rfl := Option.some.inj h
    exact pySliceTo_length_le _ (by omega) _

/-- Witness for C1: a two-per-day config, an empty ledger, one discovered
posting and an already-cleared cancellation flag; the automation entry point
selects the empty list, which fits the remaining quota of 2. -/
theorem c1_witness :
    ((([] : List (Job × Analysis)).length : ℤ) ≤
      (2 : ℤ) - (calculateApplicationsToday "2026-10-12" (.ok []) : ℤ)) :=
  (c1_quota_bound simZero kpNone "" "t" "2026-10-12" (.ok []) 2 true
    (fun _ => false) [jobBlank]).1 [] (by rfl)

theorem mem_autoFilterLoop_check_false {check : String → Bool}
    {analyzeF : Job → Analysis} {running : ℕ → Bool} :
    ∀ (l : List Job) (i : ℕ) (p : Job × Analysis),
      p ∈ autoFilterLoop check analyzeF running i l →
      check (pyGet p.1.job_url "") = false := by
  intro l
  induction l with
  | nil => intro i p hp; simp [autoFilterLoop] at hp
  | cons j rest ih =>
    intro i p hp
    simp only [autoFilterLoop] at hp
    split_ifs at hp with h1 h2 h3
    · simp at hp
    · exact ih (i + 1) p hp
    · rcases List.mem_cons.mp hp with hpe | hpm
      · rw [hpe]
        simpa using h2
      · exact ih (i + 1) p hpm
    · exact ih (i + 1) p hp

theorem mem_mainFilterLoop_check_false {check : String → Bool}
    {analyzeF : Job → Analysis} :
    ∀ (l : List Job) (p : Job × Analysis),
      p ∈ mainFilterLoop check analyzeF l →
      check (pyGet p.1.job_url "") = false := by
  intro l
  induction l with
  | nil => intro p hp; simp [mainFilterLoop] at hp
  | cons j rest ih =>
    intro p hp
    simp only [mainFilterLoop] at hp
    split_ifs at hp with h1 h2
    · exact ih p hp
    · rcases List.mem_cons.mp hp with hpe | hpm
      · rw [hpe]
        simpa using h1
      · exact ih p hpm
    · exact ih p hp

theorem mem_insertPriorityDesc {p x : Job × Analysis} :
    ∀ {l : List (Job × Analysis)},
      p ∈ insertPriorityDesc x l ↔ p = x ∨ p ∈ l := by
  intro l
  induction l with
  | nil => simp [insertPriorityDesc]
  | cons y ys ih =>
    rw [insertPriorityDesc]
    split_ifs
    · simp [List.mem_cons]
    · simp only [List.mem_cons, ih]
      tauto

theorem mem_sortByPriorityDesc {p : Job × Analysis} :
    ∀ {l : List (Job × Analysis)}, p ∈ sortByPriorityDesc l ↔ p ∈ l := by
  intro l
  induction l with
  | nil => simp [sortByPriorityDesc]
  | cons x xs ih =>
    rw [sortByPriorityDesc]
    rw [mem_insertPriorityDesc]
    simp [ih]

/-- Claim C9: the scoring/filtering phase skips every posting whose URL
appears in the ledger with any status (the `application_status` of the row is
unconstrained here, so Failed and Error rows block re-selection exactly like
Applied rows), in both orchestration entry points. -/
theorem c9_dedup_ignores_status (sim : String → String → Except String ℚ)
    (kp : String → String → List String) (resume now today : String)
    (records : List LedgerRecord) (maxPerDay : ℕ) (otherPreflightOk : Bool)
    (running : ℕ → Bool) (jobs : List Job) (r : LedgerRecord) (j : Job)
    (hr : r ∈ records) (hurl : r.job_url = pyGet j.job_url "") :
    (∀ sel, automationRunSelection sim kp resume now today (.ok records)
        maxPerDay otherPreflightOk running jobs = some sel →
      j ∉ sel.map Prod.fst) ∧
    (∀ sel, mainRunSelection sim kp resume now today (.ok records) maxPerDay
        jobs = some sel →
      j ∉ sel.map Prod.fst) := by
  have hcheck : checkAlreadyApplied (.ok records) (pyGet j.job_url "") = true := by
    simp only [checkAlreadyApplied, List.any_eq_true]
    exact ⟨r, hr, by simp [hurl]⟩
  constructor
  · intro sel hsel hmem
    obtain ⟨p, hp, hpj⟩ := List.mem_map.mp hmem
    simp only [automationRunSelection] at hsel
    split_ifs at hsel
    obtain rfl := Option.some.inj hsel
    simp only [analyzeAndFilterJobs] at hp
    have hp2 := mem_sortByPriorityDesc.mp (mem_pySliceTo _ _ hp)
    have := mem_autoFilterLoop_check_false jobs 0 p hp2
    rw [hpj] at this
    rw [this] at hcheck
    exact Bool.false_ne_true hcheck
  · intro sel hsel hmem
    obtain ⟨p, hp, hpj⟩ := List.mem_map.mp hmem
    simp only [mainRunSelection] at hsel
    split_ifs at hsel
    obtain rfl := Option.some.inj hsel
    have hp2 := mem_sortByPriorityDesc.mp (mem_pySliceTo _ _ hp)
    have := mem_mainFilterLoop_check_false jobs p hp2
    rw [hpj] at this
    rw [this] at hcheck
    exact Bool.false_ne_true hcheck

/-- A prior ledger row for the C9 witness: same URL as `jobUrlX` but with
status Failed and a date on no particular day. -/
def recUrlX : LedgerRecord :=
  ⟨"", "Acme", "Economist", "London", "https://linkedin.com/jobs/42", 0,
    "Failed", "LinkedIn", "Unknown", "Not specified", "...", "", "", "", "No",
    "No"⟩

/-- Witness for C9: with a one-per-day config, a ledger holding one Failed
row for the URL and that URL rediscovered, the selected list never contains
the posting. -/
theorem c9_witness :
    jobUrlX ∉ (([] : List (Job × Analysis)).map Prod.fst) :=
  (c9_dedup_ignores_status simZero kpNone "" "t" "2026-10-12" [recUrlX] 1 true
    (fun _ => false) [jobUrlX] recUrlX jobUrlX (by simp) rfl).1 [] (by rfl)

theorem exec_cancel_aux (now : String) (applyOutcome : ℕ → Except String Bool)
    (k : ℕ) :
    ∀ (jobs : List (Job × Analysis)) (records : List LedgerRecord) (i₀ : ℕ),
      ∃ written s f,
        executeApplicationsLoop now applyOutcome (fun i => decide (i ≤ k))
            (.ok records) i₀ jobs =
          ⟨.ok (records ++ written), min (k + 1 - i₀) jobs.length, s, f⟩ ∧
        written.length = min (k + 1 - i₀) jobs.length := by
  intro jobs
  induction jobs with
  | nil =>
    intro records i₀
    exact ⟨[], 0, 0, by simp [executeApplicationsLoop], by simp⟩
  | cons ja rest ih =>
    intro records i₀
    obtain ⟨j, a⟩ := ja
    by_cases hik : i₀ ≤ k
    · have hflag : ¬((fun i => decide (i ≤ k)) i₀ = false) := by simp [hik]
      cases hap : applyOutcome i₀ with
      | ok success =>
        obtain ⟨w, s, f, hw, hwl⟩ :=
          ih (records ++
            [mkLedgerRecord now j a.similarity_score
              (if success then "Applied" else "Failed")]) (i₀ + 1)
        refine ⟨mkLedgerRecord now j a.similarity_score
            (if success then "Applied" else "Failed") :: w,
          s + (if success then 1 else 0), f + (if success then 0 else 1),
          ?_, ?_⟩
        · simp only [executeApplicationsLoop, if_neg hflag, hap, logApplication]
          rw [hw]
          simp [List.append_assoc]
          omega
        · simp only [List.length_cons, hwl, List.length_cons]
          omega
      | error e =>
        obtain ⟨w, s, f, hw, hwl⟩ :=
          ih (records ++
            [mkLedgerRecord now j a.similarity_score "Error"]) (i₀ + 1)
        refine ⟨mkLedgerRecord now j a.similarity_score "Error" :: w,
          s, f + 1, ?_, ?_⟩
        · simp only [executeApplicationsLoop, if_neg hflag, hap, logApplication]
          rw [hw]
          simp [List.append_assoc]
          omega
        · simp only [List.length_cons, hwl, List.length_cons]
          omega
    · have hflag : ((fun i => decide (i ≤ k)) i₀ = false) := by simp [hik]
      refine ⟨[], 0, 0, ?_, ?_⟩
      · simp only [executeApplicationsLoop, if_pos hflag]
        simp
        omega
      · simp only [List.length_nil]
        omega

/-- Claim C5: the submission loop polls the cancellation flag before each
candidate; if the flag is cleared right after candidate `k` completes (so the
poll answers true for candidates `1..k` and false afterwards) then, starting
from any readable ledger, exactly `k` records are appended — one per
completed candidate and none for unattempted ones, the prior rows kept
intact — and the session counts exactly `k` attempted. -/
theorem c5_cancellation_after_k (now : String)
    (applyOutcome : ℕ → Except String Bool) (records : List LedgerRecord)
    (jobs : List (Job × Analysis)) (k : ℕ) (hk : k ≤ jobs.length) :
    (ledgerRecords (executeApplications now applyOutcome
        (fun i => decide (i ≤ k)) (.ok records) jobs).ledger).length =
      records.length + k ∧
    (ledgerRecords (executeApplications now applyOutcome
        (fun i => decide (i ≤ k)) (.ok records) jobs).ledger).take
      records.length = records ∧
    (executeApplications now applyOutcome (fun i => decide (i ≤ k))
        (.ok records) jobs).attempted = k := by
  obtain ⟨w, s, f, hw, hwl⟩ := exec_cancel_aux now applyOutcome k jobs records 1
  have hmin : min (k + 1 - 1) jobs.length = k := by omega
  rw [executeApplications, hw]
  refine ⟨?_, ?_, ?_⟩
  · simp only [ledgerRecords, List.length_append]
    omega
  · simp only [ledgerRecords]
    exact List.take_left records w
  · simpa using hmin

/-- The candidate batch for the C5 witness: ten identical scored candidates. -/
def jobs10 : List (Job × Analysis) :=
  List.replicate 10
    (jobBlank, ⟨0, 0, ⟨[], "unknown", [], [], 0, 0⟩, "", [], false, "t"⟩)

/-- Witness for C5: ten candidates, cancellation after candidate 3 completes,
every attempt succeeding — exactly 3 records are written and 3 attempts
counted. -/
theorem c5_witness :
    (ledgerRecords (executeApplications "t" (fun _ => .ok true)
        (fun i => decide (i ≤ 3)) (.ok []) jobs10).ledger).length =
      ([] : List LedgerRecord).length + 3 ∧
    (ledgerRecords (executeApplications "t" (fun _ => .ok true)
        (fun i => decide (i ≤ 3)) (.ok []) jobs10).ledger).take
      ([] : List LedgerRecord).length = ([] : List LedgerRecord) ∧
    (executeApplications "t" (fun _ => .ok true) (fun i => decide (i ≤ 3))
        (.ok []) jobs10).attempted = 3 :=
  c5_cancellation_after_k "t" (fun _ => .ok true) [] jobs10 3 (by simp [jobs10])

end AppFiesta
